import Mathlib

/-!
Verification development for the Haven TTRPG platform backend
(`ttrpg_platform/app`).  The Python source is shallowly embedded:
pure helpers become Lean functions, the database and the WebSocket
connection registries become explicit state values, and fallible
external effects (SMTP delivery, WebSocket pushes, database reads)
are parameterised by explicit success flags.  Machine-level detail
(actual sockets, SQL) is abstracted; the control flow and data
transformations follow the Python line by line.
-/

namespace Haven

/-! ## Dice parsing (`crud.parse_dice_notation_for_rp`) -/

/-- Whitespace characters removed by Python `str.strip()`. -/
def isPySpace (c : Char) : Bool :=
  c = ' ' || c = '\t' || c = '\n' || c = '\r' || c.toNat = 11 || c.toNat = 12

/-- Python `str.strip()` on a character list. -/
def pyStrip (cs : List Char) : List Char :=
  ((cs.dropWhile isPySpace).reverse.dropWhile isPySpace).reverse

/-- Python `str.lower()` (ASCII case folding suffices for the dice grammar). -/
def pyLower (cs : List Char) : List Char := cs.map Char.toLower

/-- Value of a digit string, as Python `int()` on a `\d+` match. -/
def digitsToNat (ds : List Char) : Nat :=
  ds.foldl (fun n c => 10 * n + (c.toNat - 48)) 0

/-- The regular expression `^(\d+)d(\d+)(?:([+-])(\d+))?$` from
`crud.parse_dice_notation_for_rp`, as a deterministic matcher on
character lists.  Returns `(count, sides, optional (isMinus, modifier))`. -/
def matchDiceRegex (cs : List Char) : Option (Nat × Nat × Option (Bool × Nat)) :=
  let d1 := cs.takeWhile Char.isDigit
  let r1 := cs.dropWhile Char.isDigit
  if d1.isEmpty then none else
  match r1 with
  | 'd' :: r2 =>
    let d2 := r2.takeWhile Char.isDigit
    let r3 := r2.dropWhile Char.isDigit
    if d2.isEmpty then none else
    match r3 with
    | [] => some (digitsToNat d1, digitsToNat d2, none)
    | c :: r4 =>
      if c = '+' ∨ c = '-' then
        let d3 := r4.takeWhile Char.isDigit
        let r5 := r4.dropWhile Char.isDigit
        if d3.isEmpty ∨ ¬ r5.isEmpty then none
        else some (digitsToNat d1, digitsToNat d2, some (decide (c = '-'), digitsToNat d3))
      else none
  | _ => none

/-- The dictionary returned by `crud.parse_dice_notation_for_rp`.
Note: the Python function builds `total = sum(rolls)`; the parsed
modifier is never added. -/
structure DiceResult where
  num_dice : Nat
  num_sides : Nat
  rolls : List Nat
  total : Nat
deriving Repr, DecidableEq

/-- `crud.parse_dice_notation_for_rp`.  Randomness is supplied by `rng`;
`random.randint(1, num_sides)` for the `i`-th die is modelled as
`1 + rng i % num_sides`, which ranges over exactly `[1, num_sides]`. -/
def parseDiceForRp (s : String) (rng : Nat → Nat) : Option DiceResult :=
  match matchDiceRegex (pyLower (pyStrip s.data)) with
  | none => none
  | some (nd, ns, _m) =>
    if nd = 0 ∨ ns = 0 ∨ 100 < nd then none
    else
      let rolls := (List.range nd).map (fun i => 1 + rng i % ns)
      some ⟨nd, ns, rolls, rolls.sum⟩

/-- Accepted dice strings satisfy the documented bounds and shape
(count in `[1, 100]`, sides ≥ 1, `count` rolls each in `[1, sides]`,
total = sum of rolls). -/
theorem parseDiceForRp_shape (s : String) (rng : Nat → Nat) (r : DiceResult)
    (h : parseDiceForRp s rng = some r) :
    1 ≤ r.num_dice ∧ r.num_dice ≤ 100 ∧ 1 ≤ r.num_sides ∧
    r.rolls.length = r.num_dice ∧
    (∀ x ∈ r.rolls, 1 ≤ x ∧ x ≤ r.num_sides) ∧
    r.total = r.rolls.sum := by
  unfold parseDiceForRp at h
  cases hm : matchDiceRegex (pyLower (pyStrip s.data)) with
  | none => rw [hm] at h; exact absurd h (by simp)
  | some v =>
    rw [hm] at h
    obtain ⟨nd, ns, m⟩ := v
    by_cases hc : nd = 0 ∨ ns = 0 ∨ 100 < nd
    · simp [hc] at h
    · simp only [hc, if_false] at h
      push_neg at hc
      obtain ⟨h1, h2, h3⟩ := hc
      cases h
      refine ⟨Nat.one_le_iff_ne_zero.mpr h1, h3, Nat.one_le_iff_ne_zero.mpr h2, ?_, ?_, rfl⟩
      · simp
      · intro x hx
        simp only [List.mem_map, List.mem_range] at hx
        obtain ⟨i, _, hxi⟩ := hx
        have hlt := Nat.mod_lt (rng i) (Nat.pos_of_ne_zero h2)
        dsimp only
        omega

/-- C1: the spec requires the returned total of an accepted dice string to
be `sum(rolls)` plus the signed modifier when one is present.  The code
parses the modifier but never applies it: with every die showing 1,
`"3d6+2"` yields rolls `[1, 1, 1]` and total `3`, not `1 + 1 + 1 + 2 = 5`.
The four invalid strings are rejected as specified. -/
theorem c1_dice_total_drops_modifier :
    parseDiceForRp "3d6+2" (fun _ => 0) =
      some ⟨3, 6, [1, 1, 1], 3⟩ ∧
    (1 + 1 + 1 + 2 : Nat) ≠ 3 ∧
    parseDiceForRp "0d6" (fun _ => 0) = none ∧
    parseDiceForRp "101d6" (fun _ => 0) = none ∧
    parseDiceForRp "d6" (fun _ => 0) = none ∧
    parseDiceForRp "3d0" (fun _ => 0) = none := by
  refine ⟨by decide, by decide, by decide, by decide, by decide, by decide⟩

/-! ## DM e-mail cooldown gate (`routers/messages.py`, lines 139-147) -/

/-- A Python `datetime`: an instant (seconds since epoch, read as UTC
wall-clock) plus a time-zone-awareness flag. -/
structure PyDateTime where
  val : Int
  aware : Bool
deriving Repr, DecidableEq

/-- `d.replace(tzinfo=timezone.utc) if d.tzinfo is None else d`: a naive
timestamp is reinterpreted as UTC with the same clock reading, an aware
one already denotes its instant; either way the comparison key is `val`. -/
def utcNormalize (d : PyDateTime) : Int := d.val

/-- `models.DmNotificationCooldown` (the row for one (sender, receiver)
pair; `last_email_sent_at` is nullable). -/
structure DmNotificationCooldown where
  original_sender_id : Nat
  receiver_id : Nat
  last_email_sent_at : Option PyDateTime
deriving Repr, DecidableEq

/-- `DM_EMAIL_COOLDOWN_MINUTES` from `routers/messages.py`. -/
def dmEmailCooldownMinutes : Nat := 15

/-- The cooldown decision of `send_direct_message` (lines 141-147):
`can_send_email` starts `True` and flips to `False` exactly when a record
with a non-null timestamp exists and `now < last_sent + 15 minutes`. -/
def canSendEmailAfterCooldown (c : Option DmNotificationCooldown) (now : Int) : Bool :=
  match c with
  | none => true
  | some r =>
    match r.last_email_sent_at with
    | none => true
    | some d => decide (¬ (now < utcNormalize d + dmEmailCooldownMinutes * 60))

/-- C8 counterexample: at the exact boundary `now = last_sent + 15 min`
(record timestamp 0, `now = 900` seconds) the code allows the e-mail,
but the claim's characterisation ("older than now minus the window",
i.e. `last < now − 900`) is false there, refuting the "exactly when". -/
theorem c8_cooldown_boundary_counterexample :
    canSendEmailAfterCooldown (some ⟨1, 2, some ⟨0, false⟩⟩) 900 = true ∧
    ¬ ((some (⟨1, 2, some ⟨0, false⟩⟩ : DmNotificationCooldown) = none) ∨
       (0 : Int) < 900 - 15 * 60) := by
  decide

/-- C8 (amended): the gate is true exactly when no record exists, the
record's timestamp is null, or at least the 15-minute window has fully
elapsed (`now ≥ last_sent + 15 min`, UTC-normalized); the decision never
depends on the stored timestamp's awareness flag. -/
theorem c8_cooldown_gate_amended (c : Option DmNotificationCooldown) (now : Int) :
    (canSendEmailAfterCooldown c now = true ↔
      (c = none ∨ ∃ r, c = some r ∧ (r.last_email_sent_at = none ∨
        ∃ d, r.last_email_sent_at = some d ∧ utcNormalize d + 15 * 60 ≤ now))) ∧
    (∀ sid rid v a b,
      canSendEmailAfterCooldown (some ⟨sid, rid, some ⟨v, a⟩⟩) now =
      canSendEmailAfterCooldown (some ⟨sid, rid, some ⟨v, b⟩⟩) now) := by
  constructor
  · cases c with
    | none => simp [canSendEmailAfterCooldown]
    | some r =>
      cases h : r.last_email_sent_at with
      | none => simp [canSendEmailAfterCooldown, h]
      | some d =>
        simp only [canSendEmailAfterCooldown, h, decide_eq_true_eq]
        constructor
        · intro hle
          exact Or.inr ⟨r, rfl, Or.inr ⟨d, h, by unfold dmEmailCooldownMinutes at hle; omega⟩⟩
        · rintro (hc | ⟨r', hr', hn | ⟨d', hd', hle⟩⟩)
          · exact absurd hc (by simp)
          · cases hr'; rw [h] at hn; exact absurd hn (by simp)
          · cases hr'; rw [h] at hd'; cases hd'
            unfold dmEmailCooldownMinutes; omega
  · intro sid rid v a b
    rfl

/-! ## Connection registries (`routers/messages.py` ConnectionManager,
`routers/rp_chat.py` RpConnectionManager).  WebSockets are identified
by numeric handles; Python dicts become insertion-ordered association
lists. -/

/-- Lookup in the user-keyed registry (`user_id in active_connections` /
`active_connections[user_id]`). -/
def dictFind (l : List (Nat × Nat)) (k : Nat) : Option Nat :=
  (l.find? (fun p => p.1 == k)).map (·.2)

/-- Python dict assignment `d[k] = v`: update in place when the key is
present, append otherwise. -/
def dictSet (l : List (Nat × Nat)) (k v : Nat) : List (Nat × Nat) :=
  if (dictFind l k).isSome then
    l.map (fun p => if p.1 == k then (k, v) else p)
  else l ++ [(k, v)]

/-- `ConnectionManager.connect` (after `websocket.accept()`):
`self.active_connections[user_id] = websocket`. -/
def cmConnect (l : List (Nat × Nat)) (ws uid : Nat) : List (Nat × Nat) :=
  dictSet l uid ws

/-- `ConnectionManager.disconnect`: deletes the entry when present,
otherwise does nothing. -/
def cmDisconnect (l : List (Nat × Nat)) (uid : Nat) : List (Nat × Nat) :=
  if (dictFind l uid).isSome then l.filter (fun p => p.1 != uid) else l

/-- `ConnectionManager.send_personal_message_json`: returns `None` in
Python (no boolean); if a connection is registered for `uid` it calls
`websocket.send_json`, whose failure (modelled by `pushOk ws = false`)
raises out of the method.  The registry is never modified here. -/
def sendPersonalMessageJson (conns : List (Nat × Nat)) (uid : Nat)
    (pushOk : Nat → Bool) : (List (Nat × Nat)) × Except Unit Unit :=
  match dictFind conns uid with
  | none => (conns, Except.ok ())
  | some ws => if pushOk ws then (conns, Except.ok ()) else (conns, Except.error ())

/-- C2 counterexample: registry `{1 ↦ 42}`, push on handle 42 fails.
The claim requires the call to unregister user 1's connection and
return `false`; the code leaves the connection registered and lets the
exception propagate (it returns no boolean at all). -/
theorem c2_no_unregister_on_push_failure :
    sendPersonalMessageJson [(1, 42)] 1 (fun _ => false) =
      ([(1, 42)], Except.error ()) ∧
    dictFind (sendPersonalMessageJson [(1, 42)] 1 (fun _ => false)).1 1 = some 42 :=
  ⟨rfl, rfl⟩

/-- C2 (amended): the user-directed delivery returns no success flag;
the registry is returned unchanged in every case, the call completes
silently when no connection exists or the push succeeds, and a push
failure propagates as an exception with the connection still
registered (no self-healing unregister). -/
theorem c2_send_personal_message_amended (conns : List (Nat × Nat)) (uid : Nat)
    (pushOk : Nat → Bool) :
    (sendPersonalMessageJson conns uid pushOk).1 = conns ∧
    ((sendPersonalMessageJson conns uid pushOk).2 = Except.error () ↔
      ∃ ws, dictFind conns uid = some ws ∧ pushOk ws = false) := by
  unfold sendPersonalMessageJson
  cases h : dictFind conns uid with
  | none => simp
  | some ws =>
    by_cases hp : pushOk ws = true
    · simp [hp]
    · simp only [Bool.not_eq_true] at hp
      simp [hp]

/-! ### Channel-keyed registry (`RpConnectionManager`) -/

/-- Lookup in the channel-keyed registry. -/
def chanFind (l : List (String × List Nat)) (ch : String) : Option (List Nat) :=
  (l.find? (fun p => p.1 == ch)).map (·.2)

/-- `RpConnectionManager.connect`: creates the channel's (empty) list if
absent, then appends the websocket. -/
def rpConnect (l : List (String × List Nat)) (ws : Nat) (ch : String) :
    List (String × List Nat) :=
  match chanFind l ch with
  | none => l ++ [(ch, [ws])]
  | some _ => l.map (fun p => if p.1 == ch then (p.1, p.2 ++ [ws]) else p)

/-- `RpConnectionManager.disconnect`: removes the first occurrence of the
websocket when present, deletes the channel key when its list becomes
empty, and is a no-op (a logged message only) otherwise. -/
def rpDisconnect (l : List (String × List Nat)) (ws : Nat) (ch : String) :
    List (String × List Nat) :=
  match chanFind l ch with
  | none => l
  | some conns =>
    if ws ∈ conns then
      let conns' := conns.erase ws
      if conns'.isEmpty then l.filter (fun p => p.1 != ch)
      else l.map (fun p => if p.1 == ch then (p.1, conns') else p)
    else l

/-- Body of the broadcast loop: a successful send records a delivery, a
failing send runs the `except` branch `self.disconnect(connection,
channel_id)`. -/
def rpBroadcastStep (ch : String) (sendOk : Nat → Bool)
    (acc : List (String × List Nat) × List Nat) (c : Nat) :
    List (String × List Nat) × List Nat :=
  if sendOk c then (acc.1, acc.2 ++ [c])
  else (rpDisconnect acc.1 c ch, acc.2)

/-- `RpConnectionManager.broadcast_to_channel`: iterates over a snapshot
copy (`list(self.active_connections[channel_id])`) of the channel's
connections; per-connection failures are caught inside the loop, so the
call always returns normally.  Returns the updated registry and the
connections that received the message, in order. -/
def rpBroadcastToChannel (l : List (String × List Nat)) (ch : String)
    (sendOk : Nat → Bool) : List (String × List Nat) × List Nat :=
  match chanFind l ch with
  | none => (l, [])
  | some conns => conns.foldl (rpBroadcastStep ch sendOk) (l, [])

/-- Folding the broadcast body over connections that all send
successfully delivers to each of them and leaves the registry alone. -/
theorem foldBroadcast_all_ok (ch : String) (sendOk : Nat → Bool) :
    ∀ (conns : List Nat) (r : List (String × List Nat)) (acc : List Nat),
      (∀ c ∈ conns, sendOk c = true) →
      conns.foldl (rpBroadcastStep ch sendOk) (r, acc) = (r, acc ++ conns) := by
  intro conns
  induction conns with
  | nil => intro r acc _; simp
  | cons head tail ih =>
    intro r acc hok
    have hh : sendOk head = true := hok head (by simp)
    simp only [List.foldl_cons, rpBroadcastStep, hh, if_true]
    rw [ih r (acc ++ [head]) (fun c hc => hok c (by simp [hc]))]
    simp

/-- Folding the broadcast body when exactly one connection `bad` fails:
the registry ends as `disconnect bad`, deliveries are everyone else. -/
theorem foldBroadcast_single_fail (ch : String) (sendOk : Nat → Bool) (bad : Nat)
    (hfail : sendOk bad = false) :
    ∀ (conns : List Nat) (r : List (String × List Nat)) (acc : List Nat),
      bad ∈ conns → conns.Nodup → (∀ c ∈ conns, c ≠ bad → sendOk c = true) →
      conns.foldl (rpBroadcastStep ch sendOk) (r, acc) =
        (rpDisconnect r bad ch, acc ++ conns.erase bad) := by
  intro conns
  induction conns with
  | nil => intro r acc hmem; exact absurd hmem (by simp)
  | cons head tail ih =>
    intro r acc hmem hnd hok
    by_cases hh : head = bad
    · subst hh
      have hnotail : head ∉ tail := (List.nodup_cons.mp hnd).1
      simp only [List.foldl_cons, rpBroadcastStep, hfail, Bool.false_eq_true, if_false]
      rw [foldBroadcast_all_ok ch sendOk tail _ acc
        (fun c hc => hok c (by simp [hc]) (fun he => hnotail (he ▸ hc)))]
      rw [List.erase_cons_head]
    · have hmem' : bad ∈ tail := by
        rcases List.mem_cons.mp hmem with h | h
        · exact absurd h.symm hh
        · exact h
      have hhok : sendOk head = true := hok head (by simp) hh
      simp only [List.foldl_cons, rpBroadcastStep, hhok, if_true]
      rw [ih r (acc ++ [head]) hmem' (List.nodup_cons.mp hnd).2
        (fun c hc hcb => hok c (by simp [hc]) hcb)]
      rw [List.erase_cons_tail]
      · simp
      · simp [hh]

/-- C6: broadcasting to a channel whose (pairwise distinct) connection
list contains exactly one connection that errors on write delivers the
message to all the others, in order, and the resulting registry is
exactly the original with the failing connection disconnected; the
failure is absorbed inside the loop, never raised to the caller. -/
theorem c6_broadcast_isolates_single_failure
    (l : List (String × List Nat)) (ch : String) (conns : List Nat) (bad : Nat)
    (sendOk : Nat → Bool) (hfind : chanFind l ch = some conns) (hnd : conns.Nodup)
    (hbad : bad ∈ conns) (hfail : sendOk bad = false)
    (hok : ∀ c ∈ conns, c ≠ bad → sendOk c = true) :
    rpBroadcastToChannel l ch sendOk = (rpDisconnect l bad ch, conns.erase bad) := by
  unfold rpBroadcastToChannel
  rw [hfind]
  exact foldBroadcast_single_fail ch sendOk bad hfail conns l [] hbad hnd hok

/-- C6 witness: channel `"chan"` with connections 10, 20, 30 where only
20 fails: 10 and 30 still receive the message and exactly 20 is removed. -/
theorem c6_broadcast_witness :
    rpBroadcastToChannel [("chan", [10, 20, 30])] "chan" (fun c => c != 20) =
      ([("chan", [10, 30])], [10, 30]) := by
  have h := c6_broadcast_isolates_single_failure [("chan", [10, 20, 30])] "chan"
    [10, 20, 30] 20 (fun c => c != 20) (by decide) (by decide) (by decide) (by decide)
    (by decide)
  exact h.trans (by decide)

/-! ### Register/unregister sequences over both registries (C7) -/

/-- Combined state of the two connection registries. -/
structure Registries where
  userConns : List (Nat × Nat)
  chanConns : List (String × List Nat)
deriving Repr, DecidableEq

/-- The register/unregister operations exposed by the two managers. -/
inductive RegOp where
  | userConnect (uid ws : Nat)
  | userDisconnect (uid : Nat)
  | chanConnect (ws : Nat) (ch : String)
  | chanDisconnect (ws : Nat) (ch : String)
deriving Repr, DecidableEq

/-- One registry operation. -/
def applyOp (s : Registries) : RegOp → Registries
  | .userConnect uid ws => { s with userConns := cmConnect s.userConns ws uid }
  | .userDisconnect uid => { s with userConns := cmDisconnect s.userConns uid }
  | .chanConnect ws ch => { s with chanConns := rpConnect s.chanConns ws ch }
  | .chanDisconnect ws ch => { s with chanConns := rpDisconnect s.chanConns ws ch }

/-- A sequence of registry operations, from the empty initial state
built in the managers' constructors. -/
def applyOps (ops : List RegOp) : Registries :=
  ops.foldl applyOp ⟨[], []⟩

/-- The registry invariant: unique user keys, unique channel keys, and
no channel entry with an empty connection list. -/
def RegInv (s : Registries) : Prop :=
  (s.userConns.map (·.1)).Nodup ∧ (s.chanConns.map (·.1)).Nodup ∧
    ∀ p ∈ s.chanConns, p.2 ≠ []

theorem dictFind_none_iff (l : List (Nat × Nat)) (k : Nat) :
    dictFind l k = none ↔ ∀ p ∈ l, p.1 ≠ k := by
  simp [dictFind, List.find?_eq_none]

theorem chanFind_none_iff (l : List (String × List Nat)) (ch : String) :
    chanFind l ch = none ↔ ∀ p ∈ l, p.1 ≠ ch := by
  simp [chanFind, List.find?_eq_none]

theorem dictSet_keys_nodup (l : List (Nat × Nat)) (k v : Nat)
    (h : (l.map (·.1)).Nodup) : ((dictSet l k v).map (·.1)).Nodup := by
  unfold dictSet
  by_cases hs : (dictFind l k).isSome
  · rw [if_pos hs, List.map_map]
    have hf : ((fun p : Nat × Nat => p.1) ∘ fun p : Nat × Nat =>
        if p.1 == k then (k, v) else p) = fun p : Nat × Nat => p.1 := by
      funext p
      by_cases hp : p.1 = k <;> simp [hp]
    rw [hf]
    exact h
  · rw [if_neg hs]
    have hne : ∀ p ∈ l, p.1 ≠ k :=
      (dictFind_none_iff l k).mp (Option.not_isSome_iff_eq_none.mp hs)
    rw [List.map_append]
    rw [List.nodup_append]
    refine ⟨h, by simp, ?_⟩
    intro a ha
    simp only [List.mem_map] at ha
    obtain ⟨p, hp, hpa⟩ := ha
    simp only [List.map_cons, List.map_nil, List.mem_singleton]
    intro hk
    exact hne p hp (by rw [hpa, hk])

theorem dictFind_cons (p : Nat × Nat) (t : List (Nat × Nat)) (k : Nat) :
    dictFind (p :: t) k = if p.1 = k then some p.2 else dictFind t k := by
  by_cases hp : p.1 = k
  · rw [if_pos hp]
    unfold dictFind
    rw [List.find?_cons_of_pos _ (by simpa using hp)]
    rfl
  · rw [if_neg hp]
    unfold dictFind
    rw [List.find?_cons_of_neg _ (by simpa using hp)]

theorem dictFind_dictSet_present (l : List (Nat × Nat)) (k v : Nat)
    (h : (dictFind l k).isSome) :
    dictFind (l.map (fun p => if p.1 == k then (k, v) else p)) k = some v := by
  induction l with
  | nil => simp [dictFind] at h
  | cons p t ih =>
    rw [dictFind_cons] at h
    simp only [List.map_cons]
    by_cases hp : p.1 = k
    · rw [if_pos (by simpa using hp), dictFind_cons, if_pos rfl]
    · rw [if_neg (by simpa using hp), dictFind_cons, if_neg hp]
      rw [if_neg hp] at h
      exact ih h

theorem dictFind_append_absent (l : List (Nat × Nat)) (k v : Nat)
    (h : dictFind l k = none) : dictFind (l ++ [(k, v)]) k = some v := by
  induction l with
  | nil => rw [List.nil_append, dictFind_cons, if_pos rfl]
  | cons p t ih =>
    rw [dictFind_cons] at h
    rw [List.cons_append, dictFind_cons]
    by_cases hp : p.1 = k
    · rw [if_pos hp] at h
      exact absurd h (by simp)
    · rw [if_neg hp] at h
      rw [if_neg hp]
      exact ih h

/-- Last write wins: a fresh `connect` for a user makes the registry map
that user to the new websocket. -/
theorem dictFind_dictSet (l : List (Nat × Nat)) (k v : Nat) :
    dictFind (dictSet l k v) k = some v := by
  unfold dictSet
  by_cases hs : (dictFind l k).isSome
  · rw [if_pos hs]
    exact dictFind_dictSet_present l k v hs
  · rw [if_neg hs]
    exact dictFind_append_absent l k v (Option.not_isSome_iff_eq_none.mp hs)

theorem cmDisconnect_keys_nodup (l : List (Nat × Nat)) (uid : Nat)
    (h : (l.map (·.1)).Nodup) : ((cmDisconnect l uid).map (·.1)).Nodup := by
  unfold cmDisconnect
  by_cases hs : (dictFind l uid).isSome
  · rw [if_pos hs]
    exact h.sublist (List.Sublist.map _ (List.filter_sublist l))
  · rw [if_neg hs]
    exact h

theorem rpConnect_inv (l : List (String × List Nat)) (ws : Nat) (ch : String)
    (hk : (l.map (·.1)).Nodup) (he : ∀ p ∈ l, p.2 ≠ []) :
    ((rpConnect l ws ch).map (·.1)).Nodup ∧ ∀ p ∈ rpConnect l ws ch, p.2 ≠ [] := by
  unfold rpConnect
  cases hf : chanFind l ch with
  | none =>
    have hne : ∀ p ∈ l, p.1 ≠ ch := (chanFind_none_iff l ch).mp hf
    constructor
    · rw [List.map_append, List.nodup_append]
      refine ⟨hk, by simp, ?_⟩
      intro a ha
      simp only [List.mem_map] at ha
      obtain ⟨p, hp, hpa⟩ := ha
      simp only [List.map_cons, List.map_nil, List.mem_singleton]
      intro hkk
      exact hne p hp (by rw [hpa, hkk])
    · intro p hp
      rcases List.mem_append.mp hp with hp | hp
      · exact he p hp
      · simp only [List.mem_singleton] at hp
        rw [hp]
        simp
  | some conns =>
    constructor
    · rw [List.map_map]
      have hfn : ((fun p : String × List Nat => p.1) ∘ fun p : String × List Nat =>
          if p.1 == ch then (p.1, p.2 ++ [ws]) else p) =
          fun p : String × List Nat => p.1 := by
        funext p
        by_cases hp : p.1 = ch <;> simp [hp]
      rw [hfn]
      exact hk
    · intro p hp
      simp only [List.mem_map] at hp
      obtain ⟨q, hq, hqp⟩ := hp
      by_cases hqc : q.1 = ch
      · rw [← hqp]
        simp [hqc]
      · rw [← hqp]
        simp only [hqc, beq_iff_eq, if_false, if_neg hqc]
        exact he q hq

theorem rpDisconnect_inv (l : List (String × List Nat)) (ws : Nat) (ch : String)
    (hk : (l.map (·.1)).Nodup) (he : ∀ p ∈ l, p.2 ≠ []) :
    ((rpDisconnect l ws ch).map (·.1)).Nodup ∧ ∀ p ∈ rpDisconnect l ws ch, p.2 ≠ [] := by
  unfold rpDisconnect
  cases hf : chanFind l ch with
  | none => exact ⟨hk, he⟩
  | some conns =>
    by_cases hw : ws ∈ conns
    · simp only [hw, if_true]
      by_cases hemp : (conns.erase ws).isEmpty
      · simp only [hemp, if_true]
        constructor
        · exact hk.sublist (List.Sublist.map _ (List.filter_sublist l))
        · intro p hp
          exact he p (List.mem_of_mem_filter hp)
      · simp only [hemp, Bool.false_eq_true, if_false]
        have hne : conns.erase ws ≠ [] := by
          intro hcon
          rw [hcon] at hemp
          simp at hemp
        constructor
        · rw [List.map_map]
          have hfn : ((fun p : String × List Nat => p.1) ∘ fun p : String × List Nat =>
              if p.1 == ch then (p.1, conns.erase ws) else p) =
              fun p : String × List Nat => p.1 := by
            funext p
            by_cases hp : p.1 = ch <;> simp [hp]
          rw [hfn]
          exact hk
        · intro p hp
          simp only [List.mem_map] at hp
          obtain ⟨q, hq, hqp⟩ := hp
          by_cases hqc : q.1 = ch
          · rw [← hqp, if_pos (by simpa using hqc)]
            exact hne
          · rw [← hqp, if_neg (by simpa using hqc)]
            exact he q hq
    · simp only [hw, if_false]
      exact ⟨hk, he⟩

/-- Each single operation preserves the registry invariant. -/
theorem applyOp_inv (s : Registries) (op : RegOp) (h : RegInv s) :
    RegInv (applyOp s op) := by
  obtain ⟨h1, h2, h3⟩ := h
  cases op with
  | userConnect uid ws => exact ⟨dictSet_keys_nodup _ _ _ h1, h2, h3⟩
  | userDisconnect uid => exact ⟨cmDisconnect_keys_nodup _ _ h1, h2, h3⟩
  | chanConnect ws ch =>
    have := rpConnect_inv s.chanConns ws ch h2 h3
    exact ⟨h1, this.1, this.2⟩
  | chanDisconnect ws ch =>
    have := rpDisconnect_inv s.chanConns ws ch h2 h3
    exact ⟨h1, this.1, this.2⟩

theorem regInv_applyOps (ops : List RegOp) : RegInv (applyOps ops) := by
  suffices h : ∀ s, RegInv s → RegInv (ops.foldl applyOp s) from
    h ⟨[], []⟩ ⟨by simp, by simp, by simp⟩
  induction ops with
  | nil => intro s hs; exact hs
  | cons op rest ih =>
    intro s hs
    exact ih _ (applyOp_inv s op hs)

theorem cmDisconnect_absent (l : List (Nat × Nat)) (uid : Nat)
    (h : dictFind l uid = none) : cmDisconnect l uid = l := by
  unfold cmDisconnect
  rw [h]
  simp

theorem rpDisconnect_chan_absent (l : List (String × List Nat)) (ws : Nat) (ch : String)
    (h : chanFind l ch = none) : rpDisconnect l ws ch = l := by
  unfold rpDisconnect
  rw [h]

theorem rpDisconnect_ws_absent (l : List (String × List Nat)) (ws : Nat) (ch : String)
    (conns : List Nat) (h : chanFind l ch = some conns) (hw : ws ∉ conns) :
    rpDisconnect l ws ch = l := by
  unfold rpDisconnect
  rw [h]
  simp [hw]

/-- C7: along every sequence of register/unregister operations from the
initial empty registries, (i) the user-keyed registry has pairwise
distinct user keys (at most one connection per user), (ii) the
channel-keyed registry has distinct channel keys and no entry with an
empty connection list, (iii) a fresh registration for a user replaces
the prior connection (last-write-wins), and (iv)-(vi) unregistering an
absent user, an absent channel, or a websocket not in its channel's
list leaves the state unchanged (a no-op, not an error). -/
theorem c7_registry_invariants (ops : List RegOp) :
    (((applyOps ops).userConns.map (·.1)).Nodup) ∧
    (((applyOps ops).chanConns.map (·.1)).Nodup) ∧
    (∀ p ∈ (applyOps ops).chanConns, p.2 ≠ []) ∧
    (∀ uid ws,
      dictFind (applyOp (applyOps ops) (.userConnect uid ws)).userConns uid = some ws) ∧
    (∀ uid, dictFind (applyOps ops).userConns uid = none →
      applyOp (applyOps ops) (.userDisconnect uid) = applyOps ops) ∧
    (∀ ws ch, chanFind (applyOps ops).chanConns ch = none →
      applyOp (applyOps ops) (.chanDisconnect ws ch) = applyOps ops) ∧
    (∀ ws ch conns, chanFind (applyOps ops).chanConns ch = some conns → ws ∉ conns →
      applyOp (applyOps ops) (.chanDisconnect ws ch) = applyOps ops) := by
  obtain ⟨h1, h2, h3⟩ := regInv_applyOps ops
  refine ⟨h1, h2, h3, ?_, ?_, ?_, ?_⟩
  · intro uid ws
    exact dictFind_dictSet _ uid ws
  · intro uid h
    show { applyOps ops with userConns := cmDisconnect (applyOps ops).userConns uid } = _
    rw [cmDisconnect_absent _ _ h]
  · intro ws ch h
    show { applyOps ops with chanConns := rpDisconnect (applyOps ops).chanConns ws ch } = _
    rw [rpDisconnect_chan_absent _ _ _ h]
  · intro ws ch conns h hw
    show { applyOps ops with chanConns := rpDisconnect (applyOps ops).chanConns ws ch } = _
    rw [rpDisconnect_ws_absent _ _ _ _ h hw]

/-- C7 witness: after connecting user 1 twice (handles 5 then 9) the
registry maps user 1 to handle 9 only; disconnecting the absent user 2,
the absent channel `"c"`, and a websocket missing from a live channel
all leave the state untouched; and the concrete invariants hold. -/
theorem c7_registry_witness :
    dictFind (applyOp (applyOps [RegOp.userConnect 1 5]) (.userConnect 1 9)).userConns 1 =
      some 9 ∧
    applyOp (applyOps [RegOp.userConnect 1 5]) (.userDisconnect 2) =
      applyOps [RegOp.userConnect 1 5] ∧
    applyOp (applyOps [RegOp.chanConnect 7 "a"]) (.chanDisconnect 7 "c") =
      applyOps [RegOp.chanConnect 7 "a"] ∧
    applyOp (applyOps [RegOp.chanConnect 7 "a"]) (.chanDisconnect 8 "a") =
      applyOps [RegOp.chanConnect 7 "a"] ∧
    (((applyOps [RegOp.userConnect 1 5, RegOp.userConnect 1 9]).userConns.map (·.1)).Nodup) := by
  refine ⟨(c7_registry_invariants [RegOp.userConnect 1 5]).2.2.2.1 1 9,
    (c7_registry_invariants [RegOp.userConnect 1 5]).2.2.2.2.1 2 (by decide),
    (c7_registry_invariants [RegOp.chanConnect 7 "a"]).2.2.2.2.2.1 7 "c" (by decide),
    (c7_registry_invariants [RegOp.chanConnect 7 "a"]).2.2.2.2.2.2 8 "a" [7] (by decide)
      (by decide),
    (c7_registry_invariants [RegOp.userConnect 1 5, RegOp.userConnect 1 9]).1⟩

/-! ## Notifications, users and the digest task (`routers/tasks.py`,
`crud.py`).  Timestamps are seconds since the epoch, UTC. -/

/-- `models.Notification`. -/
structure Notification where
  id : Nat
  user_id : Nat
  ntype : String
  content : String
  link : Option String
  is_read : Bool
  emailed_in_digest : Bool
  timestamp : Int
deriving Repr, DecidableEq

/-- `models.User` (the fields the messaging/digest subsystem reads). -/
structure User where
  id : Nat
  username : String
  nickname : Option String
  email : Option String
  email_notifications_enabled : Bool
  last_digest_sent_at : Option Int
deriving Repr, DecidableEq

/-- The database state the digest task touches. -/
structure Db where
  users : List User
  notifications : List Notification
deriving Repr, DecidableEq

/-- `DIGEST_PERIOD_HOURS` from `routers/tasks.py`. -/
def DIGEST_PERIOD_HOURS : Nat := 24

/-- `DIGEST_NOTIFICATION_TYPES` from `routers/tasks.py`. -/
def DIGEST_NOTIFICATION_TYPES : List String :=
  ["new_game_post", "game_updated", "player_joined_your_game", "application_to_your_game"]

/-- `EXCLUDED_FROM_DIGEST_TYPES` from `routers/tasks.py`. -/
def EXCLUDED_FROM_DIGEST_TYPES : List String := ["new_dm"]

/-- Insertion into a timestamp-ascending list (stable). -/
def insertByTs (n : Notification) : List Notification → List Notification
  | [] => [n]
  | m :: r => if n.timestamp < m.timestamp then n :: m :: r else m :: insertByTs n r

/-- `ORDER BY timestamp ASC`. -/
def sortByTs (l : List Notification) : List Notification := l.foldr insertByTs []

/-- `crud.get_notifications_for_digest`: the user's notifications not
yet emailed in a digest, outside the excluded types, inside the included
types, strictly newer than `since` (each filter applied only when the
corresponding argument is truthy), ordered by timestamp ascending. -/
def getNotificationsForDigest (db : Db) (uid : Nat) (since : Option Int)
    (excluded included : List String) : List Notification :=
  sortByTs (db.notifications.filter (fun n =>
    n.user_id == uid && !n.emailed_in_digest &&
    (excluded.isEmpty || !(excluded.contains n.ntype)) &&
    (included.isEmpty || included.contains n.ntype) &&
    (match since with | none => true | some s => decide (s < n.timestamp))))

/-- `crud.mark_notifications_as_emailed_in_digest`. -/
def markEmailedInDigest (db : Db) (ids : List Nat) : Db :=
  { db with notifications := db.notifications.map (fun n =>
      if ids.contains n.id then { n with emailed_in_digest := true } else n) }

/-- `crud.update_user_last_digest_sent_time` (sets `func.now()`). -/
def updateUserLastDigestSentTime (db : Db) (uid : Nat) (now : Int) : Db :=
  { db with users := db.users.map (fun u =>
      if u.id == uid then { u with last_digest_sent_at := some now } else u) }

/-- `utils/email_utils.send_email_notification`: raises (RuntimeError)
when the mailer was never initialised; otherwise it runs the SMTP send
inside its own `try/except` and swallows any delivery failure, returning
normally either way.  The `Bool` payload records whether the message was
actually delivered — the Python caller cannot observe it. -/
def sendEmailOutcome (mailerInit deliveryOk : Bool) : Except Unit Bool :=
  if mailerInit then Except.ok deliveryOk else Except.error ()

/-- Result of processing one user in the digest task. -/
structure DigestUserOutcome where
  db : Db
  emailAttempted : Bool
  emailDelivered : Bool
deriving Repr, DecidableEq

/-- `tasks._send_digests_for_user`.  The notification fetch and the
grouping run before the `try` block, so a database failure there
(`fetchOk = false`) escapes as an exception; inside the `try`, a raised
send is caught and rolled back, while everything after a non-raising
send (mark + update + commit) runs unconditionally. -/
def sendDigestsForUser (db : Db) (u : User) (now : Int)
    (fetchOk mailerInit deliveryOk : Bool) : Except Unit DigestUserOutcome :=
  let since_time := u.last_digest_sent_at.getD (now - (DIGEST_PERIOD_HOURS : Int) * 3600)
  if !fetchOk then Except.error ()
  else
    let notifs := getNotificationsForDigest db u.id (some since_time)
      EXCLUDED_FROM_DIGEST_TYPES DIGEST_NOTIFICATION_TYPES
    if notifs.isEmpty then Except.ok ⟨db, false, false⟩
    else
      let grouped := DIGEST_NOTIFICATION_TYPES.map
        (fun t => (t, notifs.filter (fun n => n.ntype == t)))
      let has_content := grouped.any (fun g => !g.2.isEmpty)
      if !has_content then Except.ok ⟨db, false, false⟩
      else
        match sendEmailOutcome mailerInit deliveryOk with
        | Except.error _ => Except.ok ⟨db, true, false⟩
        | Except.ok delivered =>
          let db1 := markEmailedInDigest db (notifs.map (·.id))
          let db2 := updateUserLastDigestSentTime db1 u.id now
          Except.ok ⟨db2, true, delivered⟩

/-- The skip test at the top of the per-user loop in
`tasks._scheduled_digest_sender_task`: `DIGEST_PERIOD_HOURS - 1` hours,
i.e. a one-hour buffer. -/
def digestShouldSkip (u : User) (now : Int) : Bool :=
  match u.last_digest_sent_at with
  | none => false
  | some t => decide (now < t + ((DIGEST_PERIOD_HOURS : Int) - 1) * 3600)

/-- Result of one digest run: final database, users whose digest e-mail
was actually delivered, users for whom a send was attempted, and whether
an uncaught exception aborted the loop. -/
structure DigestRunOutcome where
  db : Db
  delivered : List Nat
  attempted : List Nat
  aborted : Bool
deriving Repr, DecidableEq

/-- The per-user loop of `tasks._scheduled_digest_sender_task`.  The
loop body has no exception handler, so an error from
`sendDigestsForUser` (the unguarded fetch) stops the whole run; the
remaining users are left unprocessed. -/
def digestLoop (now : Int) (fetchOk mailerInit deliveryOk : Nat → Bool) :
    List User → Db → DigestRunOutcome
  | [], db => ⟨db, [], [], false⟩
  | u :: rest, db =>
    if digestShouldSkip u now then digestLoop now fetchOk mailerInit deliveryOk rest db
    else
      match sendDigestsForUser db u now (fetchOk u.id) (mailerInit u.id) (deliveryOk u.id) with
      | Except.error _ => ⟨db, [], [], true⟩
      | Except.ok o =>
        let r := digestLoop now fetchOk mailerInit deliveryOk rest o.db
        ⟨r.db, (if o.emailDelivered then [u.id] else []) ++ r.delivered,
          (if o.emailAttempted then [u.id] else []) ++ r.attempted, r.aborted⟩

/-- `tasks._scheduled_digest_sender_task`: snapshots the eligible users
(e-mail notifications enabled and an e-mail address on file), then runs
the per-user loop. -/
def scheduledDigestSenderTask (db : Db) (now : Int)
    (fetchOk mailerInit deliveryOk : Nat → Bool) : DigestRunOutcome :=
  digestLoop now fetchOk mailerInit deliveryOk
    (db.users.filter (fun u => u.email_notifications_enabled && u.email.isSome)) db

/-- With a successful fetch, `_send_digests_for_user` never raises: the
raised-send path is caught inside its `try`, every other path returns. -/
theorem sendDigestsForUser_fetch_ok (db : Db) (u : User) (now : Int) (mi dk : Bool) :
    ∃ o, sendDigestsForUser db u now true mi dk = Except.ok o := by
  unfold sendDigestsForUser
  simp only [Bool.not_true, Bool.false_eq_true, if_false]
  split
  · exact ⟨_, rfl⟩
  · split
    · exact ⟨_, rfl⟩
    · split
      · exact ⟨_, rfl⟩
      · exact ⟨_, rfl⟩

/-- When every per-user fetch succeeds, the digest loop never aborts,
whatever the mailer initialisation and SMTP delivery outcomes are. -/
theorem digestLoop_no_abort (now : Int) (mi dk : Nat → Bool) :
    ∀ (us : List User) (db : Db),
      (digestLoop now (fun _ => true) mi dk us db).aborted = false := by
  intro us
  induction us with
  | nil => intro db; rfl
  | cons u rest ih =>
    intro db
    unfold digestLoop
    by_cases hs : digestShouldSkip u now = true
    · rw [if_pos hs]
      exact ih db
    · rw [if_neg hs]
      obtain ⟨o, ho⟩ := sendDigestsForUser_fetch_ok db u now (mi u.id) (dk u.id)
      rw [ho]
      simpa using ih o.db

/-- C3 counterexample: user 7 has `last_digest_sent_at = now − 23 hours`
exactly (now = 0, last = −82800 s) and one pending digestible
notification.  The claim says this run is skipped with no send and no
state mutation; the code's skip test `now < last + (24 − 1) h` is false
at the exact boundary, so the digest is sent, the notification is
marked, and `last_digest_sent_at` advances. -/
theorem c3_boundary_digest_not_skipped :
    scheduledDigestSenderTask
        ⟨[⟨7, "alice", none, some "a@x", true, some (-82800)⟩],
         [⟨1, 7, "game_updated", "g", none, false, false, -100⟩]⟩
        0 (fun _ => true) (fun _ => true) (fun _ => true) =
      ⟨⟨[⟨7, "alice", none, some "a@x", true, some 0⟩],
        [⟨1, 7, "game_updated", "g", none, false, true, -100⟩]⟩,
       [7], [7], false⟩ ∧
    ¬ ((0 : Int) < -82800 + (24 - 1) * 3600) := by
  constructor
  · decide
  · decide

/-- C3 (amended): a digest run skips a user exactly when
`last_digest_sent_at` is set and `now < last + digest_period − buffer`
with a one-hour buffer (i.e. `now < last + 23 h`); a user whose
`last_digest_sent_at` is exactly `now − 23 h` is therefore processed,
not skipped.  A user with `last_digest_sent_at = now − 25 h` and two
pending digestible notifications receives exactly one digest send,
after which both notifications are marked emailed-in-digest. -/
theorem c3_digest_skip_and_send :
    (∀ (u : User) (now : Int), digestShouldSkip u now = true ↔
      ∃ t, u.last_digest_sent_at = some t ∧ now < t + 23 * 3600) ∧
    scheduledDigestSenderTask
        ⟨[⟨7, "alice", none, some "a@x", true, some (-90000)⟩],
         [⟨1, 7, "new_game_post", "p", none, false, false, -80000⟩,
          ⟨2, 7, "game_updated", "q", none, false, false, -70000⟩]⟩
        0 (fun _ => true) (fun _ => true) (fun _ => true) =
      ⟨⟨[⟨7, "alice", none, some "a@x", true, some 0⟩],
        [⟨1, 7, "new_game_post", "p", none, false, true, -80000⟩,
         ⟨2, 7, "game_updated", "q", none, false, true, -70000⟩]⟩,
       [7], [7], false⟩ := by
  constructor
  · intro u now
    unfold digestShouldSkip
    cases h : u.last_digest_sent_at with
    | none => simp
    | some t =>
      simp only [decide_eq_true_eq]
      constructor
      · intro hlt
        exact ⟨t, rfl, by unfold DIGEST_PERIOD_HOURS at hlt; push_cast at hlt; omega⟩
      · rintro ⟨t', ht', hlt⟩
        cases ht'
        unfold DIGEST_PERIOD_HOURS
        push_cast
        omega
  · decide

/-- C4: the claim (and the spec, and the rollback comment inside
`_send_digests_for_user` itself) requires that a failed digest e-mail
send leaves both mutations uncommitted.  But
`send_email_notification` swallows the delivery failure in its own
`except` and returns normally, so the caller's `try` never fires: with
user 7's two pending notifications and a failing SMTP delivery, both
notifications are still marked emailed-in-digest and
`last_digest_sent_at` is advanced — the notifications are never
retried.  The per-user rollback only triggers when the call raises
(uninitialised mailer), in which case the database is unchanged. -/
theorem c4_failed_delivery_still_commits :
    (sendDigestsForUser
        ⟨[⟨7, "alice", none, some "a@x", true, none⟩],
         [⟨1, 7, "new_game_post", "p", none, false, false, -100⟩,
          ⟨2, 7, "game_updated", "q", none, false, false, -50⟩]⟩
        ⟨7, "alice", none, some "a@x", true, none⟩ 0 true true false =
      Except.ok ⟨⟨[⟨7, "alice", none, some "a@x", true, some 0⟩],
        [⟨1, 7, "new_game_post", "p", none, false, true, -100⟩,
         ⟨2, 7, "game_updated", "q", none, false, true, -50⟩]⟩,
       true, false⟩) ∧
    (∀ (db : Db) (u : User) (now : Int) (dk : Bool),
      ∃ o, sendDigestsForUser db u now true false dk = Except.ok o ∧
        o.db = db ∧ o.emailDelivered = false) := by
  constructor
  · rfl
  · intro db u now dk
    unfold sendDigestsForUser
    simp only [Bool.not_true, Bool.false_eq_true, if_false]
    split
    · exact ⟨_, rfl, rfl, rfl⟩
    · split
      · exact ⟨_, rfl, rfl, rfl⟩
      · exact ⟨_, rfl, rfl, rfl⟩

/-- C5 counterexample: users 1 and 2 are both eligible; user 2 has a
pending digestible notification.  A database failure while fetching
user 1's notifications (which happens before the per-user `try`)
propagates out of the loop: the run aborts, user 2 is never processed
and receives nothing, although the same run with a healthy fetch
delivers to user 2. -/
theorem c5_fetch_failure_aborts_remaining_users :
    scheduledDigestSenderTask
        ⟨[⟨1, "bob", none, some "b@x", true, none⟩,
          ⟨2, "carol", none, some "c@x", true, none⟩],
         [⟨5, 2, "game_updated", "g", none, false, false, -100⟩]⟩
        0 (fun uid => uid != 1) (fun _ => true) (fun _ => true) =
      ⟨⟨[⟨1, "bob", none, some "b@x", true, none⟩,
         ⟨2, "carol", none, some "c@x", true, none⟩],
        [⟨5, 2, "game_updated", "g", none, false, false, -100⟩]⟩,
       [], [], true⟩ ∧
    (scheduledDigestSenderTask
        ⟨[⟨1, "bob", none, some "b@x", true, none⟩,
          ⟨2, "carol", none, some "c@x", true, none⟩],
         [⟨5, 2, "game_updated", "g", none, false, false, -100⟩]⟩
        0 (fun _ => true) (fun _ => true) (fun _ => true)).delivered = [2] := by
  constructor
  · decide
  · decide

/-- C5 (amended): failures of the digest send itself (a raising
`send_email_notification`, e.g. an uninitialised mailer, or a swallowed
SMTP failure) are isolated per user — the loop always completes when
every fetch succeeds, and after user 1's send fails user 2 still
receives a digest.  A failure while fetching one user's notifications,
however, happens outside the per-user `try` and aborts the whole run,
leaving later users unprocessed. -/
theorem c5_send_failures_isolated_fetch_failures_abort :
    (∀ (us : List User) (db : Db) (now : Int) (mi dk : Nat → Bool),
      (digestLoop now (fun _ => true) mi dk us db).aborted = false) ∧
    ((scheduledDigestSenderTask
        ⟨[⟨1, "bob", none, some "b@x", true, none⟩,
          ⟨2, "carol", none, some "c@x", true, none⟩],
         [⟨4, 1, "new_game_post", "p", none, false, false, -200⟩,
          ⟨5, 2, "game_updated", "g", none, false, false, -100⟩]⟩
        0 (fun _ => true) (fun uid => uid != 1) (fun _ => true)).delivered = [2] ∧
     (scheduledDigestSenderTask
        ⟨[⟨1, "bob", none, some "b@x", true, none⟩,
          ⟨2, "carol", none, some "c@x", true, none⟩],
         [⟨4, 1, "new_game_post", "p", none, false, false, -200⟩,
          ⟨5, 2, "game_updated", "g", none, false, false, -100⟩]⟩
        0 (fun _ => true) (fun uid => uid != 1) (fun _ => true)).attempted = [1, 2] ∧
     (scheduledDigestSenderTask
        ⟨[⟨1, "bob", none, some "b@x", true, none⟩,
          ⟨2, "carol", none, some "c@x", true, none⟩],
         [⟨4, 1, "new_game_post", "p", none, false, false, -200⟩,
          ⟨5, 2, "game_updated", "g", none, false, false, -100⟩]⟩
        0 (fun _ => true) (fun uid => uid != 1) (fun _ => true)).aborted = false) ∧
    ((scheduledDigestSenderTask
        ⟨[⟨1, "bob", none, some "b@x", true, none⟩,
          ⟨2, "carol", none, some "c@x", true, none⟩],
         [⟨5, 2, "game_updated", "g", none, false, false, -100⟩]⟩
        0 (fun uid => uid != 1) (fun _ => true) (fun _ => true)).aborted = true ∧
     (scheduledDigestSenderTask
        ⟨[⟨1, "bob", none, some "b@x", true, none⟩,
          ⟨2, "carol", none, some "c@x", true, none⟩],
         [⟨5, 2, "game_updated", "g", none, false, false, -100⟩]⟩
        0 (fun uid => uid != 1) (fun _ => true) (fun _ => true)).delivered = []) := by
  refine ⟨?_, by decide, by decide⟩
  intro us db now mi dk
  exact digestLoop_no_abort now mi dk us db

/-! ## Direct messages (`routers/messages.py` send_direct_message,
`crud.py` cooldown helpers) -/

/-- `models.DirectMessage` (the fields the endpoint writes). -/
structure DirectMessage where
  id : Nat
  sender_id : Nat
  receiver_id : Nat
  content : String
deriving Repr, DecidableEq

/-- The state `send_direct_message` touches: the relevant tables plus
the DM `ConnectionManager`'s user-keyed registry; `nextDmId` and
`nextNotifId` model the autoincrement primary keys. -/
structure MsgState where
  users : List User
  directMessages : List DirectMessage
  notifications : List Notification
  cooldowns : List DmNotificationCooldown
  userConns : List (Nat × Nat)
  nextDmId : Nat
  nextNotifId : Nat
deriving Repr, DecidableEq

/-- Observable side effects of one `send_direct_message` request, in
order: a cooldown-row read, a cooldown upsert, scheduling of the
asynchronous e-mail task, a WebSocket push. -/
inductive DmEvent where
  | cooldownRead
  | cooldownUpsert
  | emailScheduled
  | wsPush (uid : Nat)
deriving Repr, DecidableEq

/-- `crud.get_user_by_id`. -/
def getUserById (st : MsgState) (uid : Nat) : Option User :=
  st.users.find? (fun u => u.id == uid)

/-- `crud.get_dm_notification_cooldown`: first row matching the
(original sender, receiver) pair. -/
def getDmCooldown (cooldowns : List DmNotificationCooldown) (sid rid : Nat) :
    Option DmNotificationCooldown :=
  cooldowns.find? (fun c => c.original_sender_id == sid && c.receiver_id == rid)

/-- Setting `last_email_sent_at = func.now()` on the first row matching
the pair (the row `get_dm_notification_cooldown` returned). -/
def updateFirstCooldown (sid rid : Nat) (now : Int) :
    List DmNotificationCooldown → List DmNotificationCooldown
  | [] => []
  | c :: rest =>
    if c.original_sender_id == sid && c.receiver_id == rid
    then { c with last_email_sent_at := some ⟨now, false⟩ } :: rest
    else c :: updateFirstCooldown sid rid now rest

/-- `crud.upsert_dm_notification_cooldown`: update the existing row's
timestamp, or insert a fresh row (whose `last_email_sent_at` is filled
by the column's `server_default=func.now()`).  The stored timestamp is
naive UTC wall-clock. -/
def upsertDmCooldown (cooldowns : List DmNotificationCooldown) (sid rid : Nat)
    (now : Int) : List DmNotificationCooldown :=
  match getDmCooldown cooldowns sid rid with
  | some _ => updateFirstCooldown sid rid now cooldowns
  | none => cooldowns ++ [⟨sid, rid, some ⟨now, false⟩⟩]

/-- Python `s[:n] + ('...' if len(s) > n else '')`. -/
def pyPreview (s : String) (n : Nat) : String :=
  if n < s.length then s.take n ++ "..." else s

/-- The e-mail branch of `send_direct_message` (lines 130-167): runs
only when the receiver has notifications enabled and an address; an
online receiver short-circuits it; otherwise the cooldown row is read,
and when the gate allows, the e-mail task is scheduled and the cooldown
row is upserted to the current time. -/
def dmEmailPhase (st : MsgState) (sender receiver : User) (now : Int) :
    MsgState × List DmEvent :=
  if receiver.email_notifications_enabled && receiver.email.isSome then
    if (dictFind st.userConns receiver.id).isSome then (st, [])
    else
      let c := getDmCooldown st.cooldowns sender.id receiver.id
      if canSendEmailAfterCooldown c now then
        ({ st with cooldowns := upsertDmCooldown st.cooldowns sender.id receiver.id now },
         [DmEvent.cooldownRead, DmEvent.emailScheduled, DmEvent.cooldownUpsert])
      else (st, [DmEvent.cooldownRead])
  else (st, [])

/-- The notification row built by `crud.create_notification` for a new
direct message (type `"new_dm"`, 50-character preview, deep link to the
sender's conversation). -/
def dmNotifRecord (st : MsgState) (sender : User) (receiverId : Nat)
    (content : String) (now : Int) : Notification :=
  ⟨st.nextNotifId, receiverId, "new_dm",
    "New message from " ++ (sender.nickname.getD sender.username) ++ ": " ++
      pyPreview content 50,
    some ("/dm?targetUser=" ++ sender.username), false, false, now⟩

/-- The two unconditional persistence steps of `send_direct_message`:
`crud.create_direct_message` followed by `crud.create_notification`. -/
def dmAfterPersist (st : MsgState) (sender : User) (receiverId : Nat)
    (content : String) (now : Int) : MsgState :=
  let st1 := { st with
    directMessages := st.directMessages ++
      [(⟨st.nextDmId, sender.id, receiverId, content⟩ : DirectMessage)],
    nextDmId := st.nextDmId + 1 }
  { st1 with notifications := st1.notifications ++ [dmNotifRecord st1 sender receiverId content now],
             nextNotifId := st1.nextNotifId + 1 }

/-- `send_direct_message` (`POST /api/users/{receiver_user_id}/messages`).
Returns the final state, the side-effect trace and `some code` when the
request fails with an HTTPException before doing anything. -/
def sendDirectMessage (st : MsgState) (sender : User) (receiverId : Nat)
    (content : String) (now : Int) : MsgState × List DmEvent × Option Nat :=
  if sender.id == receiverId then (st, [], some 400)
  else
    match getUserById st receiverId with
    | none => (st, [], some 404)
    | some receiver =>
      let st2 := dmAfterPersist st sender receiverId content now
      let phase := dmEmailPhase st2 sender receiver now
      let pushEvs := if (dictFind phase.1.userConns receiverId).isSome
        then [DmEvent.wsPush receiverId] else []
      (phase.1, phase.2 ++ pushEvs, none)

theorem getUserById_id (st : MsgState) (uid : Nat) (u : User)
    (h : getUserById st uid = some u) : u.id = uid := by
  unfold getUserById at h
  have := List.find?_some h
  simpa using this

theorem getDmCooldown_cons (c : DmNotificationCooldown)
    (t : List DmNotificationCooldown) (sid rid : Nat) :
    getDmCooldown (c :: t) sid rid =
      if c.original_sender_id = sid ∧ c.receiver_id = rid then some c
      else getDmCooldown t sid rid := by
  by_cases h : c.original_sender_id = sid ∧ c.receiver_id = rid
  · rw [if_pos h]
    unfold getDmCooldown
    rw [List.find?_cons_of_pos _ (by simp [h.1, h.2])]
  · rw [if_neg h]
    unfold getDmCooldown
    rw [List.find?_cons_of_neg _ (by simpa using h)]

/-- After an upsert, the pair's cooldown row exists and carries the
current time. -/
theorem getDmCooldown_upsert (l : List DmNotificationCooldown) (sid rid : Nat) (now : Int) :
    ∃ c, getDmCooldown (upsertDmCooldown l sid rid now) sid rid = some c ∧
      c.last_email_sent_at = some ⟨now, false⟩ := by
  induction l with
  | nil =>
    refine ⟨⟨sid, rid, some ⟨now, false⟩⟩, ?_, rfl⟩
    unfold upsertDmCooldown getDmCooldown
    simp
  | cons c rest ih =>
    by_cases hm : c.original_sender_id = sid ∧ c.receiver_id = rid
    · have hget : getDmCooldown (c :: rest) sid rid = some c := by
        rw [getDmCooldown_cons, if_pos hm]
      refine ⟨{ c with last_email_sent_at := some ⟨now, false⟩ }, ?_, rfl⟩
      unfold upsertDmCooldown
      rw [hget]
      unfold updateFirstCooldown
      rw [if_pos (by simp [hm.1, hm.2])]
      rw [getDmCooldown_cons, if_pos (by exact hm)]
    · have hskip : getDmCooldown (c :: rest) sid rid = getDmCooldown rest sid rid := by
        rw [getDmCooldown_cons, if_neg hm]
      obtain ⟨c', hc', hlast⟩ := ih
      refine ⟨c', ?_, hlast⟩
      unfold upsertDmCooldown at hc' ⊢
      rw [hskip]
      cases hr : getDmCooldown rest sid rid with
      | none =>
        rw [hr] at hc'
        show getDmCooldown ((c :: rest) ++ [⟨sid, rid, some ⟨now, false⟩⟩]) sid rid = some c'
        rw [List.cons_append, getDmCooldown_cons, if_neg hm]
        exact hc'
      | some c0 =>
        rw [hr] at hc'
        show getDmCooldown (updateFirstCooldown sid rid now (c :: rest)) sid rid = some c'
        unfold updateFirstCooldown
        rw [if_neg (by simpa using hm)]
        rw [getDmCooldown_cons, if_neg hm]
        exact hc'

/-- The e-mail branch never touches messages, notifications or the
connection registry; only the cooldown table can change. -/
theorem dmEmailPhase_state (st : MsgState) (s r : User) (now : Int) :
    (dmEmailPhase st s r now).1.notifications = st.notifications ∧
    (dmEmailPhase st s r now).1.userConns = st.userConns := by
  unfold dmEmailPhase
  dsimp only
  split
  · split
    · exact ⟨rfl, rfl⟩
    · split
      · exact ⟨rfl, rfl⟩
      · exact ⟨rfl, rfl⟩
  · exact ⟨rfl, rfl⟩

/-- An online receiver short-circuits the whole e-mail branch. -/
theorem dmEmailPhase_online (st : MsgState) (s r : User) (now : Int)
    (h : (dictFind st.userConns r.id).isSome) :
    dmEmailPhase st s r now = (st, []) := by
  unfold dmEmailPhase
  by_cases he : (r.email_notifications_enabled && r.email.isSome) = true
  · rw [if_pos he, if_pos h]
  · rw [if_neg he]

/-- When the cooldown gate refuses, no e-mail task is scheduled. -/
theorem dmEmailPhase_suppressed (st : MsgState) (s r : User) (now : Int)
    (h : canSendEmailAfterCooldown (getDmCooldown st.cooldowns s.id r.id) now = false) :
    DmEvent.emailScheduled ∉ (dmEmailPhase st s r now).2 := by
  unfold dmEmailPhase
  by_cases he : (r.email_notifications_enabled && r.email.isSome) = true
  · rw [if_pos he]
    by_cases ho : ((dictFind st.userConns r.id).isSome : Prop)
    · rw [if_pos ho]
      simp
    · rw [if_neg ho]
      dsimp only
      simp [h]
  · rw [if_neg he]
    simp

/-- The cooldown upsert and the e-mail scheduling happen together. -/
theorem dmEmailPhase_upsert_iff_scheduled (st : MsgState) (s r : User) (now : Int) :
    (DmEvent.cooldownUpsert ∈ (dmEmailPhase st s r now).2 ↔
     DmEvent.emailScheduled ∈ (dmEmailPhase st s r now).2) := by
  unfold dmEmailPhase
  dsimp only
  split
  · split
    · simp
    · split
      · simp
      · simp
  · simp

/-- If the upsert happened, the pair's cooldown row in the resulting
state carries the current time. -/
theorem dmEmailPhase_upsert_result (st : MsgState) (s r : User) (now : Int)
    (h : DmEvent.cooldownUpsert ∈ (dmEmailPhase st s r now).2) :
    ∃ c, getDmCooldown (dmEmailPhase st s r now).1.cooldowns s.id r.id = some c ∧
      c.last_email_sent_at = some ⟨now, false⟩ := by
  unfold dmEmailPhase at h ⊢
  by_cases he : (r.email_notifications_enabled && r.email.isSome) = true
  · rw [if_pos he] at h ⊢
    by_cases ho : ((dictFind st.userConns r.id).isSome : Prop)
    · rw [if_pos ho] at h
      simp at h
    · rw [if_neg ho] at h ⊢
      dsimp only at h ⊢
      by_cases hc : (canSendEmailAfterCooldown (getDmCooldown st.cooldowns s.id r.id) now) = true
      · rw [if_pos hc]
        exact getDmCooldown_upsert st.cooldowns s.id r.id now
      · rw [if_neg hc] at h
        simp at h
  · rw [if_neg he] at h
    simp at h

/-- The unconditional persistence phase appends exactly one `"new_dm"`
notification addressed to the receiver. -/
theorem dmAfterPersist_notifications (st : MsgState) (sender : User) (receiverId : Nat)
    (content : String) (now : Int) :
    ∃ n, (dmAfterPersist st sender receiverId content now).notifications =
        st.notifications ++ [n] ∧ n.user_id = receiverId ∧ n.ntype = "new_dm" :=
  ⟨_, rfl, rfl, rfl⟩

theorem notin_pushEvs (b : Bool) (rid : Nat) (e : DmEvent)
    (h : ∀ u, e ≠ DmEvent.wsPush u) :
    e ∉ (if b = true then [DmEvent.wsPush rid] else []) := by
  cases b <;> simp [h]

/-- C9: a successful direct message always appends exactly one
`"new_dm"` notification for the receiver; an online receiver causes no
cooldown read, no cooldown upsert and no e-mail scheduling, whatever
the cooldown state; an offline receiver whose gate refuses still gets
the notification (first conjunct) but no e-mail; and the cooldown row
is upserted — to the current time — exactly when the asynchronous
e-mail task is scheduled. -/
theorem c9_dm_notification_and_email_policy (st : MsgState) (sender : User)
    (receiverId : Nat) (content : String) (now : Int) :
    ((sendDirectMessage st sender receiverId content now).2.2 = none →
      ∃ n, (sendDirectMessage st sender receiverId content now).1.notifications =
          st.notifications ++ [n] ∧ n.user_id = receiverId ∧ n.ntype = "new_dm") ∧
    ((dictFind st.userConns receiverId).isSome →
      DmEvent.cooldownRead ∉ (sendDirectMessage st sender receiverId content now).2.1 ∧
      DmEvent.cooldownUpsert ∉ (sendDirectMessage st sender receiverId content now).2.1 ∧
      DmEvent.emailScheduled ∉ (sendDirectMessage st sender receiverId content now).2.1) ∧
    (dictFind st.userConns receiverId = none →
      canSendEmailAfterCooldown (getDmCooldown st.cooldowns sender.id receiverId) now = false →
      DmEvent.emailScheduled ∉ (sendDirectMessage st sender receiverId content now).2.1) ∧
    (DmEvent.cooldownUpsert ∈ (sendDirectMessage st sender receiverId content now).2.1 ↔
      DmEvent.emailScheduled ∈ (sendDirectMessage st sender receiverId content now).2.1) ∧
    (DmEvent.cooldownUpsert ∈ (sendDirectMessage st sender receiverId content now).2.1 →
      ∃ c, getDmCooldown (sendDirectMessage st sender receiverId content now).1.cooldowns
          sender.id receiverId = some c ∧ c.last_email_sent_at = some ⟨now, false⟩) := by
  by_cases hself : (sender.id == receiverId) = true
  · have hres : sendDirectMessage st sender receiverId content now = (st, [], some 400) := by
      unfold sendDirectMessage
      rw [if_pos hself]
    rw [hres]
    exact ⟨by simp, fun _ => ⟨by simp, by simp, by simp⟩, fun _ _ => by simp, by simp, by simp⟩
  · cases hu : getUserById st receiverId with
    | none =>
      have hres : sendDirectMessage st sender receiverId content now = (st, [], some 404) := by
        unfold sendDirectMessage
        rw [if_neg hself, hu]
      rw [hres]
      exact ⟨by simp, fun _ => ⟨by simp, by simp, by simp⟩, fun _ _ => by simp, by simp, by simp⟩
    | some receiver =>
      have hrid : receiver.id = receiverId := getUserById_id st receiverId receiver hu
      have hres : sendDirectMessage st sender receiverId content now =
          ((dmEmailPhase (dmAfterPersist st sender receiverId content now) sender receiver now).1,
           (dmEmailPhase (dmAfterPersist st sender receiverId content now) sender receiver now).2 ++
             (if (dictFind (dmEmailPhase (dmAfterPersist st sender receiverId content now)
                    sender receiver now).1.userConns receiverId).isSome
              then [DmEvent.wsPush receiverId] else []), none) := by
        unfold sendDirectMessage
        rw [if_neg hself, hu]
      have hc2 : (dmAfterPersist st sender receiverId content now).userConns = st.userConns := rfl
      have hco : (dmAfterPersist st sender receiverId content now).cooldowns = st.cooldowns := rfl
      have hphase := dmEmailPhase_state (dmAfterPersist st sender receiverId content now)
        sender receiver now
      rw [hres]
      refine ⟨?_, ?_, ?_, ?_, ?_⟩
      · intro _
        obtain ⟨n, hn, h1, h2⟩ := dmAfterPersist_notifications st sender receiverId content now
        exact ⟨n, by dsimp only; rw [hphase.1, hn], h1, h2⟩
      · intro honline
        have hp := dmEmailPhase_online (dmAfterPersist st sender receiverId content now)
          sender receiver now (by rw [hc2, hrid]; exact honline)
        rw [hp]
        dsimp only
        refine ⟨?_, ?_, ?_⟩ <;>
          · rw [List.nil_append]
            exact notin_pushEvs _ _ _ (fun u hh => DmEvent.noConfusion hh)
      · intro hoff hgate
        have hsup := dmEmailPhase_suppressed (dmAfterPersist st sender receiverId content now)
          sender receiver now (by rw [hco, hrid]; exact hgate)
        dsimp only
        intro hmem
        rcases List.mem_append.mp hmem with hm | hm
        · exact hsup hm
        · exact notin_pushEvs _ _ _ (fun u hh => DmEvent.noConfusion hh) hm
      · have hiff := dmEmailPhase_upsert_iff_scheduled
          (dmAfterPersist st sender receiverId content now) sender receiver now
        dsimp only
        constructor
        · intro hm
          rcases List.mem_append.mp hm with h | h
          · exact List.mem_append.mpr (Or.inl (hiff.mp h))
          · exact absurd h (notin_pushEvs _ _ _ (fun u hh => DmEvent.noConfusion hh))
        · intro hm
          rcases List.mem_append.mp hm with h | h
          · exact List.mem_append.mpr (Or.inl (hiff.mpr h))
          · exact absurd h (notin_pushEvs _ _ _ (fun u hh => DmEvent.noConfusion hh))
      · intro hm
        dsimp only at hm ⊢
        have hm' : DmEvent.cooldownUpsert ∈
            (dmEmailPhase (dmAfterPersist st sender receiverId content now)
              sender receiver now).2 := by
          rcases List.mem_append.mp hm with h | h
          · exact h
          · exact absurd h (notin_pushEvs _ _ _ (fun u hh => DmEvent.noConfusion hh))
        have hr := dmEmailPhase_upsert_result
          (dmAfterPersist st sender receiverId content now) sender receiver now hm'
        rw [hrid] at hr
        exact hr

/-- C9 witness: user 1 messages user 2.  With user 2 online (handle 42
registered) the notification is appended and no cooldown bookkeeping
happens; with user 2 offline inside the 15-minute window (row timestamp
0, now 100 s) the e-mail is suppressed; with user 2 offline and no
cooldown row, the row ends up stamped with the current time. -/
theorem c9_dm_policy_witness :
    (∃ n, (sendDirectMessage
        ⟨[⟨2, "bob", none, some "b@x", true, none⟩], [], [], [], [(2, 42)], 0, 0⟩
        ⟨1, "ann", none, none, true, none⟩ 2 "hi" 100).1.notifications =
        ([] : List Notification) ++ [n] ∧ n.user_id = 2 ∧ n.ntype = "new_dm") ∧
    DmEvent.cooldownRead ∉ (sendDirectMessage
        ⟨[⟨2, "bob", none, some "b@x", true, none⟩], [], [], [], [(2, 42)], 0, 0⟩
        ⟨1, "ann", none, none, true, none⟩ 2 "hi" 100).2.1 ∧
    DmEvent.emailScheduled ∉ (sendDirectMessage
        ⟨[⟨2, "bob", none, some "b@x", true, none⟩], [], [],
         [⟨1, 2, some ⟨0, false⟩⟩], [], 0, 0⟩
        ⟨1, "ann", none, none, true, none⟩ 2 "hi" 100).2.1 ∧
    ∃ c, getDmCooldown (sendDirectMessage
        ⟨[⟨2, "bob", none, some "b@x", true, none⟩], [], [], [], [], 0, 0⟩
        ⟨1, "ann", none, none, true, none⟩ 2 "hi" 100).1.cooldowns 1 2 = some c ∧
      c.last_email_sent_at = some ⟨100, false⟩ :=
  ⟨(c9_dm_notification_and_email_policy
      ⟨[⟨2, "bob", none, some "b@x", true, none⟩], [], [], [], [(2, 42)], 0, 0⟩
      ⟨1, "ann", none, none, true, none⟩ 2 "hi" 100).1 (by decide),
   ((c9_dm_notification_and_email_policy
      ⟨[⟨2, "bob", none, some "b@x", true, none⟩], [], [], [], [(2, 42)], 0, 0⟩
      ⟨1, "ann", none, none, true, none⟩ 2 "hi" 100).2.1 (by decide)).1,
   (c9_dm_notification_and_email_policy
      ⟨[⟨2, "bob", none, some "b@x", true, none⟩], [], [],
       [⟨1, 2, some ⟨0, false⟩⟩], [], 0, 0⟩
      ⟨1, "ann", none, none, true, none⟩ 2 "hi" 100).2.2.1 (by decide) (by decide),
   (c9_dm_notification_and_email_policy
      ⟨[⟨2, "bob", none, some "b@x", true, none⟩], [], [], [], [], 0, 0⟩
      ⟨1, "ann", none, none, true, none⟩ 2 "hi" 100).2.2.2.2 (by decide)⟩

/-- C10: addressing a direct message to one's own user id fails with
HTTP 400 as the very first check: the state is untouched and no side
effect (persisted message, notification, cooldown read/upsert, e-mail,
push) happens.  The spec never mentions this self-send restriction. -/
theorem c10_self_send_rejected_before_effects (st : MsgState) (sender : User)
    (content : String) (now : Int) :
    sendDirectMessage st sender sender.id content now = (st, [], some 400) := by
  unfold sendDirectMessage
  rw [if_pos (by simp)]

end Haven
